import Mathlib

/-!
Verification development for the Event-Locator-App repository.

The JavaScript source is shallowly embedded: rows of the relational store
become Lean structures, the store itself is a record of row lists, and each
operation of the models/services layer becomes a pure Lean function on the
store. JavaScript numbers parsed from requests are modelled as
Option Rat with none standing for NaN; JavaScript truthiness of numbers
(0 and NaN are falsy) and of strings (the empty string is falsy) is made
explicit. PostGIS computes geodesic distance outside the repository, so the
search pipeline takes the distance function as an explicit parameter and the
theorems hold for every distance function, in particular for the
great-circle distance of the specification.
-/

namespace EventLocator

/-- Truthiness of a JavaScript number value: undefined and NaN are modelled
as none and are falsy, and the number 0 is falsy. -/
def jsTruthyNum (v : Option ℚ) : Bool :=
  match v with
  | some q => decide (q ≠ 0)
  | none => false

/-- Truthiness of a JavaScript string value: undefined is none and falsy,
and the empty string is falsy. -/
def jsTruthyStr (v : Option String) : Bool :=
  match v with
  | some s => decide (s ≠ "")
  | none => false

/-- Embedding of the expression parseFloat(x) || d from the source: the
parsed value when it is a number other than 0, the default d otherwise. -/
def jsNumOr (v : Option ℚ) (d : ℚ) : ℚ :=
  match v with
  | some q => if q = 0 then d else q
  | none => d

/-- Coordinate validation from src/utils/geoUtils.js (isValidCoordinates):
lat in [-90, 90] and lon in [-180, 180]. -/
def isValidCoordinates (lat lon : ℚ) : Bool :=
  decide (-90 ≤ lat) && decide (lat ≤ 90) && decide (-180 ≤ lon) && decide (lon ≤ 180)

/-- An event row of the events table (src/models/User.js, Event part).
The PostGIS point is stored as the latitude/longitude pair; times are
modelled as integers (milliseconds since the epoch). -/
structure EventRow where
  id : Nat
  title : String
  description : Option String
  latitude : ℚ
  longitude : ℚ
  address : Option String
  startTime : Int
  endTime : Option Int
  creatorId : Option Nat
deriving Repr, DecidableEq

/-- A row of the event_reviews table. -/
structure ReviewRow where
  id : Nat
  eventId : Nat
  userId : Nat
  rating : Nat
  review : Option String
deriving Repr, DecidableEq

/-- The uniqueness key of a review row: the (event, user) pair. -/
def reviewKey (r : ReviewRow) : Nat × Nat :=
  (r.eventId, r.userId)

/-- A row of the users table. -/
structure UserRow where
  id : Nat
  username : String
  email : String
  fullName : Option String
  preferredLanguage : String
  location : Option (ℚ × ℚ)
deriving Repr, DecidableEq

/-- The relational store: events, the event_categories association table
(event id, category id), the event_reviews table and the
user_favorite_events table (user id, event id). -/
structure Store where
  events : List EventRow
  eventCategories : List (Nat × Nat)
  reviews : List ReviewRow
  favorites : List (Nat × Nat)
deriving Repr, DecidableEq

/-- Category ids currently associated with an event id, read from the
event_categories association table. -/
def categoriesOf (st : Store) (id : Nat) : List Nat :=
  (st.eventCategories.filter fun pc => decide (pc.1 = id)).map Prod.snd

/-- Input of User.create (src/models/User.js lines 6-39). Latitude and
longitude are optional numbers. -/
structure UserCreateData where
  username : String
  email : String
  fullName : Option String := none
  latitude : Option ℚ := none
  longitude : Option ℚ := none
  preferredLanguage : String := "en"
deriving Repr, DecidableEq

/-- User.create (src/models/User.js lines 6-39): the location column is set
to a point only when the latitude AND longitude values are truthy, that is
the code tests if (latitude && longitude); otherwise NULL is stored. -/
def User.create (newId : Nat) (d : UserCreateData) : UserRow :=
  { id := newId
    username := d.username
    email := d.email
    fullName := d.fullName
    preferredLanguage := d.preferredLanguage
    location :=
      if jsTruthyNum d.latitude && jsTruthyNum d.longitude then
        some (d.latitude.getD 0, d.longitude.getD 0)
      else none }

/-- Input of User.update (src/models/User.js lines 92-152): every field is
optional. -/
structure UserUpdateData where
  username : Option String := none
  email : Option String := none
  fullName : Option String := none
  preferredLanguage : Option String := none
  latitude : Option ℚ := none
  longitude : Option ℚ := none
deriving Repr, DecidableEq

/-- User.update (src/models/User.js lines 92-152): each column is included
in the UPDATE only when the supplied value is truthy, and the location is
included only when latitude AND longitude are both truthy numbers. -/
def User.update (u : UserRow) (d : UserUpdateData) : UserRow :=
  { u with
    username := if jsTruthyStr d.username then d.username.getD u.username else u.username
    email := if jsTruthyStr d.email then d.email.getD u.email else u.email
    fullName := if jsTruthyStr d.fullName then d.fullName else u.fullName
    preferredLanguage :=
      if jsTruthyStr d.preferredLanguage then d.preferredLanguage.getD u.preferredLanguage
      else u.preferredLanguage
    location :=
      if jsTruthyNum d.latitude && jsTruthyNum d.longitude then
        some (d.latitude.getD 0, d.longitude.getD 0)
      else u.location }

/-- Input of Event.update (src/models/User.js, Event part, lines 292-379).
A field of type Option (Option _) distinguishes absent (none) from an
explicit null (some none), matching the source tests against undefined;
plain Option fields are tested for truthiness by the source. -/
structure EventUpdateData where
  title : Option String := none
  description : Option (Option String) := none
  latitude : Option ℚ := none
  longitude : Option ℚ := none
  address : Option String := none
  startTime : Option Int := none
  endTime : Option (Option Int) := none
  categories : Option (List Nat) := none
deriving Repr, DecidableEq

/-- Whether Event.update pushes at least one column assignment besides
updated_at: title truthy, description not undefined, latitude and longitude
both truthy, address truthy, startTime supplied, or endTime not undefined
(lines 307-336 of the Event model). -/
def eventUpdateFieldSupplied (d : EventUpdateData) : Bool :=
  jsTruthyStr d.title || d.description.isSome
    || (jsTruthyNum d.latitude && jsTruthyNum d.longitude)
    || jsTruthyStr d.address || d.startTime.isSome || d.endTime.isSome

/-- The effect of the dynamic UPDATE statement of Event.update on the
matched event row: each supplied column is assigned, others keep their
prior value. -/
def Event.applyUpdate (d : EventUpdateData) (e : EventRow) : EventRow :=
  { e with
    title := if jsTruthyStr d.title then d.title.getD e.title else e.title
    description :=
      match d.description with
      | some v => v
      | none => e.description
    latitude :=
      if jsTruthyNum d.latitude && jsTruthyNum d.longitude then d.latitude.getD e.latitude
      else e.latitude
    longitude :=
      if jsTruthyNum d.latitude && jsTruthyNum d.longitude then d.longitude.getD e.longitude
      else e.longitude
    address := if jsTruthyStr d.address then d.address else e.address
    startTime :=
      match d.startTime with
      | some s => s
      | none => e.startTime
    endTime :=
      match d.endTime with
      | some v => v
      | none => e.endTime }

/-- Event.update (src/models/User.js, Event part, lines 292-379). When no
column besides updated_at is supplied the source returns getById(id) early
(line 341-343), BEFORE the category-replacement block, so the store is
unchanged in that case even when categories were supplied. Otherwise the
UPDATE is applied and, when a categories array is supplied, the prior
associations of the event are deleted and the supplied ones inserted. -/
def Event.update (st : Store) (id : Nat) (d : EventUpdateData) : Store :=
  if eventUpdateFieldSupplied d then
    let st1 : Store :=
      { st with events := st.events.map fun e => if e.id = id then Event.applyUpdate d e else e }
    match d.categories with
    | some cs =>
        { st1 with
          eventCategories :=
            (st1.eventCategories.filter fun pc => decide (pc.1 ≠ id)) ++ cs.map fun c => (id, c) }
    | none => st1
  else st

/-- The endTime rule of eventUpdateValidation (src/utils/errorHandler.js
lines 239-247): the request is rejected only when the payload contains a
truthy endTime AND a truthy startTime and endTime is not strictly after the
PAYLOAD startTime; the stored start time is never consulted. Returns true
when the payload passes. -/
def eventUpdateValidationEndTime (d : EventUpdateData) : Bool :=
  match d.endTime, d.startTime with
  | some (some et), some s => decide (s < et)
  | _, _ => true

/-- Event.addReview (src/models/User.js, Event part, lines 638-669): when a
review row for the (event, user) pair exists it is updated in place,
otherwise a new row is inserted; newId stands for the serial id the
database would assign. -/
def Event.addReview (st : Store) (newId eventId userId rating : Nat)
    (body : Option String) : Store :=
  if st.reviews.any fun r => r.eventId == eventId && r.userId == userId then
    { st with
      reviews := st.reviews.map fun r =>
        if r.eventId == eventId && r.userId == userId then
          { r with rating := rating, review := body }
        else r }
  else
    { st with
      reviews := st.reviews ++
        [{ id := newId, eventId := eventId, userId := userId, rating := rating, review := body }] }

/-- The review-store invariant: at most one review per (event, user) pair. -/
def reviewsUnique (st : Store) : Prop :=
  (st.reviews.map reviewKey).Nodup

/-- Event.favoriteEvent (src/models/User.js, Event part, lines 710-720):
INSERT with ON CONFLICT DO NOTHING, an idempotent insert of the pair. -/
def Event.favoriteEvent (st : Store) (userId eventId : Nat) : Store :=
  if (userId, eventId) ∈ st.favorites then st
  else { st with favorites := st.favorites ++ [(userId, eventId)] }

/-- Event.unfavoriteEvent (src/models/User.js, Event part, lines 723-732):
DELETE of the pair rows with RETURNING; the Bool is rows.length > 0, that
is whether anything was deleted. -/
def Event.unfavoriteEvent (st : Store) (userId eventId : Nat) : Store × Bool :=
  ({ st with
     favorites := st.favorites.filter fun p => !(p.1 == userId && p.2 == eventId) },
   st.favorites.any fun p => p.1 == userId && p.2 == eventId)

/-- HTTP status produced by the unfavoriteEvent controller
(src/controllers/userController.js lines 166-191): 404 when the model
reports that nothing was deleted, 200 otherwise. -/
def unfavoriteEventStatus (st : Store) (userId eventId : Nat) : Nat :=
  if (Event.unfavoriteEvent st userId eventId).2 then 200 else 404

/-- Event.delete (src/models/User.js, Event part, lines 382-386) removes
the event row and reports whether a row existed. Modelled from the spec:
the cascade to category associations, reviews and favorite markers is
enforced by the database schema, which is not under src/; section 3 of the
spec states that deletion cascades to all three. -/
def Event.delete (st : Store) (id : Nat) : Store × Bool :=
  ({ st with
     events := st.events.filter fun e => decide (e.id ≠ id)
     eventCategories := st.eventCategories.filter fun pc => decide (pc.1 ≠ id)
     reviews := st.reviews.filter fun r => decide (r.eventId ≠ id)
     favorites := st.favorites.filter fun p => decide (p.2 ≠ id) },
   st.events.any fun e => e.id == id)

/-- A distance function in kilometres taking the two points as
lat1 lon1 lat2 lon2. The SQL of Event.searchByLocation delegates the
measure to PostGIS: ST_DWithin(location, center, radius * 1000) filters on
distance at most radius kilometres and ST_Distance(location, center)/1000
is the same measure; both use one geodesic great-circle distance that the
database computes, so the pipeline is parametrised by it and the theorems
hold for every distance function. -/
abbrev DistanceFn := ℚ → ℚ → ℚ → ℚ → ℚ

/-- Parameters of Event.searchByLocation (src/models/User.js, Event part,
lines 491-500), with the source defaults of radius 10, page 1, limit 10. -/
structure SearchParams where
  latitude : ℚ
  longitude : ℚ
  radius : ℚ := 10
  categoryIds : List Nat := []
  startDate : Option Int := none
  endDate : Option Int := none
  page : Nat := 1
  limit : Nat := 10
deriving Repr, DecidableEq

/-- Distance from the search center to the stored location of an event. -/
def eventDistance (d : DistanceFn) (p : SearchParams) (e : EventRow) : ℚ :=
  d p.latitude p.longitude e.latitude e.longitude

/-- The WHERE clause of Event.searchByLocation (lines 505-536): distance
within the radius, start_time at least startDate and at most endDate when
those are supplied, and, when the category list is nonempty, membership of
at least one requested category through the event_categories join with the
SQL IN list. -/
def matchesSearch (d : DistanceFn) (p : SearchParams) (st : Store) (e : EventRow) : Bool :=
  decide (eventDistance d p e ≤ p.radius)
    && (match p.startDate with
        | some s => decide (s ≤ e.startTime)
        | none => true)
    && (match p.endDate with
        | some t => decide (e.startTime ≤ t)
        | none => true)
    && (if p.categoryIds.isEmpty then true
        else p.categoryIds.any fun c => st.eventCategories.any fun pc => pc.1 == e.id && pc.2 == c)

/-- The ORDER BY of Event.searchByLocation (line 567): ascending
distance_km, ties broken by ascending start_time. -/
def searchLe (d : DistanceFn) (p : SearchParams) (e1 e2 : EventRow) : Prop :=
  eventDistance d p e1 < eventDistance d p e2 ∨
    (eventDistance d p e1 = eventDistance d p e2 ∧ e1.startTime ≤ e2.startTime)

instance (d : DistanceFn) (p : SearchParams) : DecidableRel (searchLe d p) := fun e1 e2 => by
  unfold searchLe
  exact inferInstance

/-- Math.ceil(total / limit) of the pagination block. For a positive limit
this natural-division form equals the rational ceiling, which the theorem
jsCeilPages_eq_ceil below establishes; with limit = 0 the JavaScript
quotient is not finite, this model returns 0 there, and every statement
about pages assumes a positive limit. -/
def jsCeilPages (total limit : Nat) : Nat :=
  (total + limit - 1) / limit

/-- The pagination envelope returned by Event.searchByLocation and
Event.getAll. -/
structure Pagination where
  total : Nat
  page : Nat
  limit : Nat
  pages : Nat
deriving Repr, DecidableEq

/-- Result of Event.searchByLocation and Event.getAll: the page of events
and the pagination envelope. Row enrichment that does not alter the list
(category names per row, the rounded distance_km display string) is not
reproduced. -/
structure SearchResult where
  events : List EventRow
  pagination : Pagination
deriving Repr, DecidableEq

/-- Event.searchByLocation (src/models/User.js, Event part, lines 491-608):
the count query totals the distinct ids of the events matching the WHERE
clause, and the main query returns the matching events ordered by distance
then start time, with OFFSET (page - 1) * limit and LIMIT limit. -/
def Event.searchByLocation (d : DistanceFn) (st : Store) (p : SearchParams) : SearchResult :=
  { events :=
      ((List.insertionSort (searchLe d p) (st.events.filter (matchesSearch d p st))).drop
        ((p.page - 1) * p.limit)).take p.limit
    pagination :=
      { total := (((st.events.filter (matchesSearch d p st)).map EventRow.id).dedup).length
        page := p.page
        limit := p.limit
        pages :=
          jsCeilPages (((st.events.filter (matchesSearch d p st)).map EventRow.id).dedup).length
            p.limit } }

/-- Parameters of Event.getAll (lines 389), with the source defaults. -/
structure GetAllParams where
  page : Nat := 1
  limit : Nat := 10
  categoryIds : List Nat := []
  creatorId : Option Nat := none
  startDate : Option Int := none
  endDate : Option Int := none
deriving Repr, DecidableEq

/-- The WHERE clause of Event.getAll (lines 394-423): creator, date range
and category membership, each only when supplied. -/
def matchesGetAll (p : GetAllParams) (st : Store) (e : EventRow) : Bool :=
  (match p.creatorId with
   | some c => e.creatorId == some c
   | none => true)
    && (match p.startDate with
        | some s => decide (s ≤ e.startTime)
        | none => true)
    && (match p.endDate with
        | some t => decide (e.startTime ≤ t)
        | none => true)
    && (if p.categoryIds.isEmpty then true
        else p.categoryIds.any fun c => st.eventCategories.any fun pc => pc.1 == e.id && pc.2 == c)

/-- The ORDER BY of Event.getAll (line 450): ascending start_time. -/
def startTimeLe (e1 e2 : EventRow) : Prop :=
  e1.startTime ≤ e2.startTime

instance : DecidableRel startTimeLe := fun e1 e2 => by
  unfold startTimeLe
  exact inferInstance

/-- Event.getAll (src/models/User.js, Event part, lines 389-488): count of
distinct matching ids, events ordered by start_time ascending, offset and
limit, and the same pagination envelope as the search. -/
def Event.getAll (st : Store) (p : GetAllParams) : SearchResult :=
  { events :=
      ((List.insertionSort startTimeLe (st.events.filter (matchesGetAll p st))).drop
        ((p.page - 1) * p.limit)).take p.limit
    pagination :=
      { total := (((st.events.filter (matchesGetAll p st)).map EventRow.id).dedup).length
        page := p.page
        limit := p.limit
        pages :=
          jsCeilPages (((st.events.filter (matchesGetAll p st)).map EventRow.id).dedup).length
            p.limit } }

/-- Shared fallback of the search-center resolution: the stored location of
the authenticated user when present, otherwise
(parseFloat(DEFAULT_LATITUDE) || 37.7749,
 parseFloat(DEFAULT_LONGITUDE) || -122.4194). -/
def fallbackCenter (userLoc : Option (ℚ × ℚ)) (envLat envLon : Option ℚ) : ℚ × ℚ :=
  match userLoc with
  | some u => u
  | none => (jsNumOr envLat (37.7749 : ℚ), jsNumOr envLon (-122.4194 : ℚ))

/-- Center resolution of SearchService.searchByLocation
(src/services/searchService.js lines 39-47): the parsed query coordinates
are used when isValidCoordinates accepts them (NaN parses to none and is
never valid), otherwise the fallback applies. -/
def SearchService.resolveCenter (qlat qlon : Option ℚ) (userLoc : Option (ℚ × ℚ))
    (envLat envLon : Option ℚ) : ℚ × ℚ :=
  match qlat, qlon with
  | some la, some lo =>
      if isValidCoordinates la lo then (la, lo) else fallbackCenter userLoc envLat envLon
  | some _, none => fallbackCenter userLoc envLat envLon
  | none, _ => fallbackCenter userLoc envLat envLon

/-- Center resolution of the live controller searchController.searchByLocation
(src/controllers/searchController.js lines 40-48): the fallback is taken
only when isNaN holds of either parsed coordinate; a numeric pair is used
as the center with no range check. The route that serves
GET /api/search/location validates latitude and longitude with
optional().isFloat() and no min/max bound, so out-of-range numeric pairs
reach this resolution. -/
def SearchController.resolveCenter (qlat qlon : Option ℚ) (userLoc : Option (ℚ × ℚ))
    (envLat envLon : Option ℚ) : ℚ × ℚ :=
  match qlat, qlon with
  | some la, some lo => (la, lo)
  | some _, none => fallbackCenter userLoc envLat envLon
  | none, _ => fallbackCenter userLoc envLat envLon

/-- A raw query-string entry, modelled by the outcomes of the two
JavaScript coercions the code applies to it: Number(entry), none standing
for NaN, and parseInt(entry), none standing for NaN. The entry 7 gives
(some 7, some 7), the entry abc gives (none, none), and the entry 12abc
gives (none, some 12) since parseInt reads the leading digits while Number
rejects the whole string. -/
structure QueryEntry where
  numberVal : Option ℚ
  parseIntVal : Option Int
deriving Repr, DecidableEq

/-- Normalization of the categories query parameter
(src/controllers/searchController.js lines 30-34 and
src/services/searchService.js lines 29-33): absent gives the empty list, an
array is mapped elementwise through Number, and a single value becomes a
one-element list; nothing is filtered out, so a NaN result is kept. -/
def normalizeCategories (categories : Option (QueryEntry ⊕ List QueryEntry)) :
    List (Option ℚ) :=
  match categories with
  | none => []
  | some (Sum.inl e) => [e.numberVal]
  | some (Sum.inr l) => l.map QueryEntry.numberVal

/-- The categories rule of the location-search validation (the inline rules
of the GET /api/search/location route and locationSearchValidation in
src/utils/errorHandler.js lines 289-297): every entry must satisfy
!isNaN(parseInt(entry)); a failing entry rejects the whole request with
status 400. -/
def categoriesRouteCheck (categories : QueryEntry ⊕ List QueryEntry) : Bool :=
  match categories with
  | Sum.inl e => e.parseIntVal.isSome
  | Sum.inr l => l.all fun e => e.parseIntVal.isSome

/-- A concrete distance function used to instantiate the abstract geodesic
parameter in concrete evaluations: the latitude of the second point, so
that the fixture events below lie at distances 1, 2 and 50 from any
center. Any function of the coordinates is admissible here because the
search theorems are universally quantified over the distance function. -/
def distLat : DistanceFn := fun _ _ lat2 _ => lat2

/-- Fixture: an event 1 unit from the origin under distL1. -/
def eventNear : EventRow :=
  { id := 1, title := "Near", description := none, latitude := 1, longitude := 0,
    address := none, startTime := 100, endTime := none, creatorId := some 1 }

/-- Fixture: an event 2 units from the origin under distL1. -/
def eventMid : EventRow :=
  { id := 2, title := "Mid", description := none, latitude := 2, longitude := 0,
    address := none, startTime := 200, endTime := none, creatorId := some 1 }

/-- Fixture: an event 50 units from the origin under distL1. -/
def eventFar : EventRow :=
  { id := 3, title := "Far", description := none, latitude := 50, longitude := 0,
    address := none, startTime := 300, endTime := none, creatorId := some 2 }

/-- Fixture store for the search theorems: three events, no associations. -/
def searchStoreW : Store :=
  { events := [eventFar, eventMid, eventNear], eventCategories := [], reviews := [],
    favorites := [] }

/-- Fixture search parameters: origin center, radius 5, source defaults for
the rest. -/
def searchParamsW : SearchParams :=
  { latitude := 0, longitude := 0, radius := 5 }

/-- Fixture getAll parameters: a start-date filter matching two of the
three fixture events. -/
def getAllParamsW : GetAllParams :=
  { startDate := some 150 }

/-- Fixture store for the category-replacement claims: event 1 associated
with category 1. -/
def c3Store : Store :=
  { events := [eventNear], eventCategories := [(1, 1)], reviews := [], favorites := [] }

/-- Fixture payload supplying ONLY categories to Event.update. -/
def c3Data : EventUpdateData :=
  { categories := some [2] }

/-- Fixture store for the amended category-replacement theorem: two events
with one association each. -/
def c3wStore : Store :=
  { events := [eventNear, eventMid], eventCategories := [(1, 5), (2, 7)], reviews := [],
    favorites := [] }

/-- Fixture payload supplying a title together with categories. -/
def c3wData : EventUpdateData :=
  { title := some "T", categories := some [3, 4] }

/-- Fixture payload supplying an endTime of 50 and no startTime, against a
stored start time of 100. -/
def c4Data : EventUpdateData :=
  { endTime := some (some 50) }

/-- Fixture store for the endTime-validation claim: one event with stored
start time 100 and no end time. -/
def c4Store : Store :=
  { events := [eventNear], eventCategories := [], reviews := [], favorites := [] }

/-- Fixture query entry whose string is the numeral 1. -/
def entryOne : QueryEntry :=
  { numberVal := some 1, parseIntVal := some 1 }

/-- Fixture query entry for a non-numeric string such as abc: Number and
parseInt both give NaN. -/
def entryAbc : QueryEntry :=
  { numberVal := none, parseIntVal := none }

/-- Fixture store for the review-uniqueness theorem: one stored review by
user 1 on event 1. -/
def c8Store : Store :=
  { events := [eventNear], eventCategories := [],
    reviews := [{ id := 1, eventId := 1, userId := 1, rating := 3, review := none }],
    favorites := [] }

/-- Fixture store for the unfavorite theorem: user 1 has favorited event 2
only. -/
def c9Store : Store :=
  { events := [], eventCategories := [], reviews := [], favorites := [(1, 2)] }

/-! Theorems. -/

/-- The ORDER BY relation of the search is total. -/
theorem searchLe_total (d : DistanceFn) (p : SearchParams) :
    ∀ a b, searchLe d p a b ∨ searchLe d p b a := by
  intro a b
  rcases lt_trichotomy (eventDistance d p a) (eventDistance d p b) with h | h | h
  · exact Or.inl (Or.inl h)
  · rcases le_total a.startTime b.startTime with hs | hs
    · exact Or.inl (Or.inr ⟨h, hs⟩)
    · exact Or.inr (Or.inr ⟨h.symm, hs⟩)
  · exact Or.inr (Or.inl h)

/-- The ORDER BY relation of the search is transitive. -/
theorem searchLe_trans (d : DistanceFn) (p : SearchParams) :
    ∀ a b c, searchLe d p a b → searchLe d p b c → searchLe d p a c := by
  intro a b c hab hbc
  rcases hab with h1 | ⟨h1, h1s⟩ <;> rcases hbc with h2 | ⟨h2, h2s⟩
  · exact Or.inl (h1.trans h2)
  · exact Or.inl (h2 ▸ h1)
  · exact Or.inl (h1.trans_lt h2)
  · exact Or.inr ⟨h1.trans h2, h1s.trans h2s⟩

/-- The natural-division form of the pages field equals the rational
ceiling that Math.ceil computes, for every positive limit. -/
theorem jsCeilPages_eq_ceil (t l : ℕ) (hl : 0 < l) :
    ((jsCeilPages t l : ℕ) : ℤ) = ⌈(t : ℚ) / (l : ℚ)⌉ := by
  unfold jsCeilPages
  have hdm := Nat.div_add_mod (t + l - 1) l
  have hml := Nat.mod_lt (t + l - 1) hl
  set q := (t + l - 1) / l with hq
  have h3 : t ≤ l * q := by omega
  have h4 : l * q < t + l := by omega
  have hlq : (0 : ℚ) < (l : ℚ) := by exact_mod_cast hl
  symm
  rw [Int.ceil_eq_iff]
  push_cast
  constructor
  · have key : (q : ℚ) * l < (t : ℚ) + l := by
      have hc := (Nat.cast_lt (α := ℚ)).mpr h4
      push_cast at hc
      linarith
    have h5 : (q : ℚ) < ((t : ℚ) + l) / l := (lt_div_iff₀ hlq).mpr key
    rw [add_div, div_self hlq.ne'] at h5
    linarith
  · rw [div_le_iff₀ hlq]
    have hc := (Nat.cast_le (α := ℚ)).mpr h3
    push_cast at hc
    linarith

/-- C1: every event in the list returned by Event.searchByLocation lies at
distance at most the radius from the search center, for every distance
function (in particular the great-circle distance the database computes),
every store and all filter, date and paging parameters; events farther
away are never returned. -/
theorem searchByLocation_within_radius (d : DistanceFn) (st : Store) (p : SearchParams) :
    ∀ e ∈ (Event.searchByLocation d st p).events, eventDistance d p e ≤ p.radius := by
  intro e he
  simp only [Event.searchByLocation] at he
  have he2 : e ∈ List.insertionSort (searchLe d p) (st.events.filter (matchesSearch d p st)) :=
    List.mem_of_mem_drop (List.mem_of_mem_take he)
  have he3 : e ∈ st.events.filter (matchesSearch d p st) :=
    (List.mem_insertionSort (searchLe d p)).mp he2
  have h4 : matchesSearch d p st e = true := List.of_mem_filter he3
  simp only [matchesSearch, Bool.and_eq_true, decide_eq_true_eq] at h4
  exact h4.1.1.1

/-- Witness for C1: at the fixture inputs the event eventNear is returned
and its distance 1 is within the radius 5. -/
theorem searchByLocation_within_radius_witness :
    eventNear ∈ (Event.searchByLocation distLat searchStoreW searchParamsW).events ∧
    eventDistance distLat searchParamsW eventNear ≤ searchParamsW.radius :=
  ⟨by decide, searchByLocation_within_radius distLat searchStoreW searchParamsW eventNear (by decide)⟩

/-- C2: the events list returned by Event.searchByLocation is pairwise
ordered by ascending distance from the center, with ties at equal distance
ordered by ascending start time, for every distance function, store and
parameters. -/
theorem searchByLocation_sorted (d : DistanceFn) (st : Store) (p : SearchParams) :
    (Event.searchByLocation d st p).events.Pairwise fun e1 e2 =>
      eventDistance d p e1 < eventDistance d p e2 ∨
        (eventDistance d p e1 = eventDistance d p e2 ∧ e1.startTime ≤ e2.startTime) := by
  have hs : List.Pairwise (searchLe d p)
      (List.insertionSort (searchLe d p) (st.events.filter (matchesSearch d p st))) := by
    haveI h1 : IsTotal EventRow (searchLe d p) := ⟨searchLe_total d p⟩
    haveI h2 : IsTrans EventRow (searchLe d p) := ⟨searchLe_trans d p⟩
    exact List.sorted_insertionSort (searchLe d p) _
  simp only [Event.searchByLocation]
  exact hs.sublist ((List.take_sublist _ _).trans (List.drop_sublist _ _))

/-- C3 counterexample: calling Event.update with a categories array as the
only supplied field hits the early return at line 341 before the
category-replacement block, so the stored association of event 1 stays
[1] instead of becoming the supplied [2]. -/
theorem update_categories_only_counterexample :
    c3Data.categories = some [2] ∧
    categoriesOf (Event.update c3Store 1 c3Data) 1 = [1] ∧
    categoriesOf (Event.update c3Store 1 c3Data) 1 ≠ [2] :=
  ⟨rfl, by decide, by decide⟩

/-- C3 amended: when a categories array is supplied AND at least one
updatable column field is supplied in the same call, the associations of
the event become exactly the supplied ids and associations of every other
event are unchanged; with categories as the only supplied field the update
returns early before the replacement block and the whole store, its
associations included, is unchanged. -/
theorem update_categories_replace (st : Store) (id : Nat) (d : EventUpdateData)
    (cs : List Nat) (hc : d.categories = some cs) :
    (eventUpdateFieldSupplied d = true →
      categoriesOf (Event.update st id d) id = cs ∧
      ∀ j, j ≠ id → categoriesOf (Event.update st id d) j = categoriesOf st j)
    ∧ (eventUpdateFieldSupplied d = false → Event.update st id d = st) := by
  refine ⟨fun hf => ?_, fun hf => ?_⟩
  case refine_2 =>
    unfold Event.update
    rw [hf]
    rfl
  have hupd : Event.update st id d =
      { st with
        events := st.events.map fun e => if e.id = id then Event.applyUpdate d e else e
        eventCategories :=
          (st.eventCategories.filter fun pc => decide (pc.1 ≠ id)) ++ cs.map fun c => (id, c) } := by
    unfold Event.update
    rw [hf, hc]
    rfl
  rw [hupd]
  constructor
  · unfold categoriesOf
    rw [List.filter_append, List.filter_filter]
    have h1 : (st.eventCategories.filter fun pc =>
        decide (pc.1 = id) && decide (pc.1 ≠ id)) = [] := by
      rw [List.filter_eq_nil_iff]
      intro pc _
      by_cases hpc : pc.1 = id <;> simp [hpc]
    have h2 : ((cs.map fun c => (id, c)).filter fun pc => decide (pc.1 = id)) =
        cs.map fun c => (id, c) := by
      rw [List.filter_eq_self]
      intro pc hpc
      rcases List.mem_map.mp hpc with ⟨c, _, rfl⟩
      simp
    rw [h1, h2, List.nil_append, List.map_map]
    simp
  · intro j hj
    unfold categoriesOf
    rw [List.filter_append, List.filter_filter]
    have h1 : ((cs.map fun c => (id, c)).filter fun pc => decide (pc.1 = j)) = [] := by
      rw [List.filter_eq_nil_iff]
      intro pc hpc
      rcases List.mem_map.mp hpc with ⟨c, _, rfl⟩
      simp [Ne.symm hj]
    have h2 : (st.eventCategories.filter fun pc =>
        decide (pc.1 = j) && decide (pc.1 ≠ id)) =
        st.eventCategories.filter fun pc => decide (pc.1 = j) := by
      apply List.filter_congr
      intro pc _
      by_cases hpc : pc.1 = j
      · simp [hpc, hj]
      · simp [hpc]
    rw [h1, h2, List.append_nil]

/-- Witness for the amended C3: with a title supplied alongside categories
[3, 4], event 1 ends with exactly [3, 4] and event 2 keeps its prior
association; with categories as the only supplied field the store is
unchanged. -/
theorem update_categories_replace_witness :
    eventUpdateFieldSupplied c3wData = true ∧
    categoriesOf (Event.update c3wStore 1 c3wData) 1 = [3, 4] ∧
    categoriesOf (Event.update c3wStore 1 c3wData) 2 = categoriesOf c3wStore 2 ∧
    eventUpdateFieldSupplied c3Data = false ∧
    Event.update c3Store 1 c3Data = c3Store :=
  ⟨by decide, ((update_categories_replace c3wStore 1 c3wData [3, 4] rfl).1 (by decide)).1,
    ((update_categories_replace c3wStore 1 c3wData [3, 4] rfl).1 (by decide)).2 2 (by decide),
    by decide, (update_categories_replace c3Store 1 c3Data [2] rfl).2 (by decide)⟩

/-- C4 evidence: the endTime rule of eventUpdateValidation accepts a
payload that supplies endTime 50 with no startTime, and Event.update then
stores end time 50 on the event whose stored start time is 100, leaving
the stored end time not strictly after the stored start time; the
documented invariant that the end time is strictly after the start time
requires this request to fail validation. -/
theorem eventUpdateValidation_ignores_stored_start :
    eventUpdateValidationEndTime c4Data = true ∧
    c4Data.startTime = none ∧
    (Event.update c4Store 1 c4Data).events.map EventRow.startTime = [(100 : Int)] ∧
    (Event.update c4Store 1 c4Data).events.map EventRow.endTime = [some (50 : Int)] ∧
    ¬ ((100 : Int) < 50) :=
  ⟨by decide, rfl, by decide, by decide, by decide⟩

/-- C5 counterexample: a request with the explicit pair (999, 0), which is
not a valid coordinate pair, made by a caller whose stored location is
(1, 2), resolves in the live controller to (999, 0) rather than to the
stored location, because the controller tests only isNaN and the route
applies no range bound. -/
theorem searchCenter_controller_counterexample :
    isValidCoordinates 999 0 = false ∧
    SearchController.resolveCenter (some 999) (some 0) (some (1, 2)) none none = (999, 0) ∧
    SearchController.resolveCenter (some 999) (some 0) (some (1, 2)) none none ≠ (1, 2) :=
  ⟨by decide, by decide, by decide⟩

/-- C5 amended: the live controller uses the explicit coordinates whenever
both parse as numbers, with no range check, and falls back to the stored
location of the authenticated caller and then to the configured default
(37.7749, -122.4194 when unset) only when a coordinate is absent or not a
number; the range-validated priority of the claim holds in
SearchService.resolveCenter, which accepts an explicit pair only when
isValidCoordinates does. -/
theorem searchCenter_resolution (userLoc : Option (ℚ × ℚ)) (envLat envLon : Option ℚ) :
    (∀ la lo, SearchController.resolveCenter (some la) (some lo) userLoc envLat envLon = (la, lo))
    ∧ (∀ qlat qlon, (qlat = none ∨ qlon = none) →
        SearchController.resolveCenter qlat qlon userLoc envLat envLon =
          fallbackCenter userLoc envLat envLon)
    ∧ (∀ u, userLoc = some u → fallbackCenter userLoc envLat envLon = u)
    ∧ (userLoc = none → envLat = none → envLon = none →
        fallbackCenter userLoc envLat envLon = (37.7749, -122.4194))
    ∧ (∀ la lo, isValidCoordinates la lo = true →
        SearchService.resolveCenter (some la) (some lo) userLoc envLat envLon = (la, lo))
    ∧ (∀ qlat qlon,
        (∀ la lo, qlat = some la → qlon = some lo → isValidCoordinates la lo = false) →
        SearchService.resolveCenter qlat qlon userLoc envLat envLon =
          fallbackCenter userLoc envLat envLon) := by
  refine ⟨fun la lo => rfl, ?_, ?_, ?_, ?_, ?_⟩
  · intro qlat qlon h
    cases qlat <;> cases qlon <;> first
      | rfl
      | (rcases h with h | h <;> simp_all)
  · intro u hu
    subst hu
    rfl
  · intro h1 h2 h3
    subst h1
    subst h2
    subst h3
    rfl
  · intro la lo hv
    simp [SearchService.resolveCenter, hv]
  · intro qlat qlon h
    cases hqa : qlat <;> cases hqb : qlon
    · rfl
    · rfl
    · rfl
    · have hinv := h _ _ hqa hqb
      simp [SearchService.resolveCenter, hinv]

/-- Witness for the amended C5: concrete instances of each branch of the
resolution. -/
theorem searchCenter_resolution_witness :
    SearchController.resolveCenter (some 5) (some 6) none none none = (5, 6) ∧
    SearchController.resolveCenter none none (some (1, 2)) none none =
      fallbackCenter (some (1, 2)) none none ∧
    fallbackCenter (some (1, 2)) none none = (1, 2) ∧
    SearchService.resolveCenter (some 5) (some 6) none none none = (5, 6) :=
  ⟨(searchCenter_resolution none none none).1 5 6,
    (searchCenter_resolution (some (1, 2)) none none).2.1 none none (Or.inl rfl),
    (searchCenter_resolution (some (1, 2)) none none).2.2.1 (1, 2) rfl,
    (searchCenter_resolution none none none).2.2.2.2.1 5 6 (by decide)⟩

/-- C6 counterexample: normalizing the list with the entries 1 and abc
gives [some 1, none]: the non-numeric entry is coerced to NaN and KEPT,
not dropped, and the categories rule of the route validation rejects the
request, so its presence does make the search request fail. -/
theorem categories_not_dropped_counterexample :
    normalizeCategories (some (Sum.inr [entryOne, entryAbc])) = [some 1, none] ∧
    normalizeCategories (some (Sum.inr [entryOne, entryAbc])) ≠ [some 1] ∧
    categoriesRouteCheck (Sum.inr [entryOne, entryAbc]) = false :=
  ⟨by decide, by decide, by decide⟩

/-- C6 amended: normalization maps Number over every entry and keeps every
result, so non-numeric entries become NaN and the output always has the
length of the input (nothing is dropped); and any entry with no parsable
leading integer makes the route validation reject the whole request with a
validation failure. -/
theorem normalizeCategories_keeps_nonnumeric (l : List QueryEntry) :
    (normalizeCategories (some (Sum.inr l))).length = l.length ∧
    normalizeCategories (some (Sum.inr l)) = l.map QueryEntry.numberVal ∧
    ∀ e ∈ l, e.parseIntVal = none → categoriesRouteCheck (Sum.inr l) = false := by
  refine ⟨List.length_map _ _, rfl, ?_⟩
  intro e he hn
  simp only [categoriesRouteCheck]
  rw [List.all_eq_false]
  exact ⟨e, he, by simp [hn]⟩

/-- Witness for the amended C6: the two-entry list with one non-numeric
entry keeps both entries and fails the validation. -/
theorem normalizeCategories_keeps_nonnumeric_witness :
    entryAbc ∈ [entryOne, entryAbc] ∧
    (normalizeCategories (some (Sum.inr [entryOne, entryAbc]))).length = 2 ∧
    categoriesRouteCheck (Sum.inr [entryOne, entryAbc]) = false :=
  ⟨by decide, (normalizeCategories_keeps_nonnumeric [entryOne, entryAbc]).1,
    (normalizeCategories_keeps_nonnumeric [entryOne, entryAbc]).2.2 entryAbc (by decide) rfl⟩

/-- C7: for every searchByLocation and getAll call over a store whose
event ids are unique (the primary key) and with a positive limit, the
returned pagination has total equal to the number of events matching all
filters before paging, echoes page and limit, and pages is the ceiling of
total over limit. -/
theorem search_pagination (d : DistanceFn) (st : Store) (p : SearchParams)
    (pg : GetAllParams) (hids : (st.events.map EventRow.id).Nodup)
    (hl : 0 < p.limit) (hlg : 0 < pg.limit) :
    ((Event.searchByLocation d st p).pagination.total =
        (st.events.filter (matchesSearch d p st)).length
      ∧ (Event.searchByLocation d st p).pagination.page = p.page
      ∧ (Event.searchByLocation d st p).pagination.limit = p.limit
      ∧ ((Event.searchByLocation d st p).pagination.pages : ℤ) =
          ⌈((Event.searchByLocation d st p).pagination.total : ℚ) / (p.limit : ℚ)⌉)
    ∧ ((Event.getAll st pg).pagination.total =
        (st.events.filter (matchesGetAll pg st)).length
      ∧ (Event.getAll st pg).pagination.page = pg.page
      ∧ (Event.getAll st pg).pagination.limit = pg.limit
      ∧ ((Event.getAll st pg).pagination.pages : ℤ) =
          ⌈((Event.getAll st pg).pagination.total : ℚ) / (pg.limit : ℚ)⌉) := by
  have hded1 : ((st.events.filter (matchesSearch d p st)).map EventRow.id).dedup =
      (st.events.filter (matchesSearch d p st)).map EventRow.id :=
    List.dedup_eq_self.mpr
      (List.Nodup.sublist (List.Sublist.map _ (List.filter_sublist _)) hids)
  have hded2 : ((st.events.filter (matchesGetAll pg st)).map EventRow.id).dedup =
      (st.events.filter (matchesGetAll pg st)).map EventRow.id :=
    List.dedup_eq_self.mpr
      (List.Nodup.sublist (List.Sublist.map _ (List.filter_sublist _)) hids)
  refine ⟨⟨?_, rfl, rfl, ?_⟩, ⟨?_, rfl, rfl, ?_⟩⟩
  · simp only [Event.searchByLocation]
    rw [hded1, List.length_map]
  · exact jsCeilPages_eq_ceil _ p.limit hl
  · simp only [Event.getAll]
    rw [hded2, List.length_map]
  · exact jsCeilPages_eq_ceil _ pg.limit hlg

/-- Witness for C7: at the fixtures, two of the three events match each
query, and the envelope is total 2, page 1, limit 10, pages 1. -/
theorem search_pagination_witness :
    (searchStoreW.events.map EventRow.id).Nodup ∧
    (Event.searchByLocation distLat searchStoreW searchParamsW).pagination =
      { total := 2, page := 1, limit := 10, pages := 1 } ∧
    (Event.getAll searchStoreW getAllParamsW).pagination =
      { total := 2, page := 1, limit := 10, pages := 1 } := by
  have h := search_pagination distLat searchStoreW searchParamsW getAllParamsW
    (by decide) (by decide) (by decide)
  exact ⟨by decide, by decide, by decide⟩

/-- C8: when the review store holds at most one review per (event, user)
pair, Event.addReview preserves that invariant, keeps the row count
unchanged when a review by the pair already exists (an update in place)
and grows it by exactly one only when none exists; the other store
operations (delete with its cascade, update, favorite, unfavorite) also
preserve the invariant. -/
theorem addReview_unique_upsert (st : Store) (newId eid uid rating : Nat)
    (body : Option String) (h : reviewsUnique st) :
    reviewsUnique (Event.addReview st newId eid uid rating body)
    ∧ ((eid, uid) ∈ st.reviews.map reviewKey →
        (Event.addReview st newId eid uid rating body).reviews.length = st.reviews.length)
    ∧ ((eid, uid) ∉ st.reviews.map reviewKey →
        (Event.addReview st newId eid uid rating body).reviews.length = st.reviews.length + 1)
    ∧ reviewsUnique (Event.delete st eid).1
    ∧ (∀ id d, reviewsUnique (Event.update st id d))
    ∧ (∀ u e, reviewsUnique (Event.favoriteEvent st u e))
    ∧ (∀ u e, reviewsUnique (Event.unfavoriteEvent st u e).1) := by
  have hmem : ((eid, uid) ∈ st.reviews.map reviewKey) ↔
      (st.reviews.any fun r => r.eventId == eid && r.userId == uid) = true := by
    rw [List.any_eq_true]
    constructor
    · intro hk
      rcases List.mem_map.mp hk with ⟨r, hr, hkey⟩
      refine ⟨r, hr, ?_⟩
      simp only [reviewKey, Prod.mk.injEq] at hkey
      simp [hkey.1, hkey.2]
    · rintro ⟨r, hr, hq⟩
      simp only [Bool.and_eq_true, beq_iff_eq] at hq
      exact List.mem_map.mpr ⟨r, hr, by simp [reviewKey, hq.1, hq.2]⟩
  have hkeymap : ∀ l : List ReviewRow,
      (l.map fun r =>
        if r.eventId == eid && r.userId == uid then
          { r with rating := rating, review := body }
        else r).map reviewKey = l.map reviewKey := by
    intro l
    rw [List.map_map]
    apply List.map_congr_left
    intro r _
    simp only [Function.comp]
    split <;> rfl
  refine ⟨?_, ?_, ?_, ?_, ?_, ?_, ?_⟩
  · unfold Event.addReview reviewsUnique
    split
    · rw [hkeymap]
      exact h
    · rename_i hany
      rw [List.map_append, List.nodup_append]
      refine ⟨h, List.nodup_singleton _, ?_⟩
      intro a ha hb
      simp only [List.map_cons, List.map_nil, List.mem_singleton] at hb
      subst hb
      exact absurd (hmem.mp ha) hany
  · intro hk
    unfold Event.addReview
    rw [if_pos (hmem.mp hk)]
    exact List.length_map _ _
  · intro hk
    unfold Event.addReview
    rw [if_neg (fun hc => hk (hmem.mpr hc))]
    simp
  · unfold Event.delete reviewsUnique
    exact List.Nodup.sublist (List.Sublist.map _ (List.filter_sublist _)) h
  · intro id d
    unfold Event.update reviewsUnique
    split
    · cases d.categories <;> exact h
    · exact h
  · intro u e
    unfold Event.favoriteEvent reviewsUnique
    split <;> exact h
  · intro u e
    exact h

/-- Witness for C8: the fixture store has one review by user 1 on event 1;
re-submitting by the same pair keeps the length at 1 and the invariant
holds afterwards. -/
theorem addReview_unique_upsert_witness :
    reviewsUnique c8Store ∧
    ((1 : Nat), (1 : Nat)) ∈ c8Store.reviews.map reviewKey ∧
    (Event.addReview c8Store 2 1 1 5 none).reviews.length = c8Store.reviews.length ∧
    reviewsUnique (Event.addReview c8Store 2 1 1 5 none) := by
  have h := addReview_unique_upsert c8Store 2 1 1 5 none (by unfold reviewsUnique; decide)
  exact ⟨by unfold reviewsUnique; decide, by decide, h.2.1 (by decide), h.1⟩

/-- C9: unfavoriting a pair that is not in the favorites table reports
that nothing was deleted, the controller answers 404, and the whole store
is unchanged. -/
theorem unfavorite_nonfavorite_notfound (st : Store) (u e : Nat)
    (h : (u, e) ∉ st.favorites) :
    (Event.unfavoriteEvent st u e).2 = false ∧
    (Event.unfavoriteEvent st u e).1 = st ∧
    unfavoriteEventStatus st u e = 404 := by
  have hany : (st.favorites.any fun p => p.1 == u && p.2 == e) = false := by
    rw [List.any_eq_false]
    intro p hp hpq
    simp only [Bool.and_eq_true, beq_iff_eq] at hpq
    apply h
    have hpe : p = (u, e) := by
      cases p
      simp_all
    rwa [hpe] at hp
  refine ⟨hany, ?_, ?_⟩
  · show ({ st with favorites := st.favorites.filter _ } : Store) = st
    have hfs : (st.favorites.filter fun p => !(p.1 == u && p.2 == e)) = st.favorites := by
      rw [List.filter_eq_self]
      intro p hp
      rw [Bool.not_eq_eq_eq_not, Bool.not_true]
      exact Bool.eq_false_iff.mpr (List.any_eq_false.mp hany p hp)
    rw [hfs]
  · unfold unfavoriteEventStatus
    rw [show (Event.unfavoriteEvent st u e).2 =
      (st.favorites.any fun p => p.1 == u && p.2 == e) from rfl, hany]
    rfl

/-- Witness for C9: user 1 has not favorited event 3 in the fixture store;
the call reports nothing deleted, status 404, and the store is unchanged. -/
theorem unfavorite_nonfavorite_notfound_witness :
    ((1 : Nat), (3 : Nat)) ∉ c9Store.favorites ∧
    (Event.unfavoriteEvent c9Store 1 3).2 = false ∧
    (Event.unfavoriteEvent c9Store 1 3).1 = c9Store ∧
    unfavoriteEventStatus c9Store 1 3 = 404 := by
  have h := unfavorite_nonfavorite_notfound c9Store 1 3 (by decide)
  exact ⟨by decide, h.1, h.2.1, h.2.2⟩

/-- C10: a supplied coordinate pair in which the latitude OR the longitude
is 0 while the pair is valid under isValidCoordinates (so the other
coordinate carries any valid value, 0 included) is treated as absent by
the numeric-truthiness tests: User.create stores no location, User.update
keeps the stored location and Event.update keeps every event coordinate
pair. -/
theorem zero_coordinate_treated_absent (la lo : ℚ) (hzero : la = 0 ∨ lo = 0)
    (hvalid : isValidCoordinates la lo = true) :
    (∀ newId uc, uc.latitude = some la → uc.longitude = some lo →
        (User.create newId uc).location = none)
    ∧ (∀ u uu, uu.latitude = some la → uu.longitude = some lo →
        (User.update u uu).location = u.location)
    ∧ (∀ st id d, d.latitude = some la → d.longitude = some lo →
        (Event.update st id d).events.map (fun e => (e.latitude, e.longitude)) =
          st.events.map fun e => (e.latitude, e.longitude)) := by
  have hfalse : (jsTruthyNum (some la) && jsTruthyNum (some lo)) = false := by
    rcases hzero with h | h <;> subst h <;> simp [jsTruthyNum]
  refine ⟨?_, ?_, ?_⟩
  · intro newId uc h1 h2
    simp [User.create, h1, h2, hfalse]
  · intro u uu h1 h2
    simp [User.update, h1, h2, hfalse]
  · intro st id d h1 h2
    unfold Event.update
    split
    · have hcoords : ∀ e : EventRow,
          ((if e.id = id then Event.applyUpdate d e else e).latitude,
            (if e.id = id then Event.applyUpdate d e else e).longitude) =
          (e.latitude, e.longitude) := by
        intro e
        split
        · simp [Event.applyUpdate, h1, h2, hfalse]
        · rfl
      cases d.categories <;>
        · rw [List.map_map]
          exact List.map_congr_left fun e _ => hcoords e
    · rfl

/-- Witness for C10: the valid pairs (0, 10), (10, 0) and (0, 0) all leave
the created user without a location. -/
theorem zero_coordinate_treated_absent_witness :
    isValidCoordinates 0 10 = true ∧
    isValidCoordinates 10 0 = true ∧
    isValidCoordinates 0 0 = true ∧
    (User.create 1
      { username := "u", email := "e", latitude := some 0, longitude := some 10 }).location =
      none ∧
    (User.create 2
      { username := "v", email := "f", latitude := some 10, longitude := some 0 }).location =
      none ∧
    (User.create 3
      { username := "w", email := "g", latitude := some 0, longitude := some 0 }).location =
      none := by
  have h1 := zero_coordinate_treated_absent 0 10 (Or.inl rfl) (by decide)
  have h2 := zero_coordinate_treated_absent 10 0 (Or.inr rfl) (by decide)
  have h3 := zero_coordinate_treated_absent 0 0 (Or.inl rfl) (by decide)
  exact ⟨by decide, by decide, by decide,
    h1.1 1 _ rfl rfl, h2.1 2 _ rfl rfl, h3.1 3 _ rfl rfl⟩

end EventLocator
